import Mathlib

/-!
Shallow embedding of the core of `src/backend/main.py` (a FastAPI face-recognition
attendance system) and proofs about it.

Modelling conventions:
- Wall-clock times are natural numbers (seconds).  `datetime.now() > expires_at`
  becomes `expires_at < now`.
- Floating-point quantities measured from an image (standard deviation, mean
  brightness, face distances, confidences) are rationals; the claims are about
  threshold logic, not rounding.
- The Supabase tables used by the handlers (`users`, `classes`,
  `class_enrollments`, `face_encodings`, `attendance`) are lists of rows inside a
  `DB` structure; row ids handed out by the database are modelled by a `next_id`
  counter.  A Python dict (the in-memory `instant_passwords` map) is an
  association list whose insert removes any previous binding of the key, like
  dict assignment.
- Nondeterministic or environmental inputs (the random 6-digit code, the image
  analysis, today's date, the day of week) are explicit parameters.
- Response `data` payloads are abstracted away: an `ApiResponse` keeps the
  `success` flag and the `message` string, which is what the claims are about.
  Messages that embed a formatted timestamp keep a fixed prefix instead of the
  formatted time.
-/

namespace Attendance

/-- Result of a liveness evaluation (`enhanced_liveness_check`'s return dict,
without the optional `details` key). -/
structure LivenessResult where
  passed : Bool
  confidence : ℚ
  message : String
deriving DecidableEq

/-- One face bounding box as returned by `face_recognition.face_locations`:
`(top, right, bottom, left)` pixel coordinates. -/
structure FaceBox where
  top : Int
  right : Int
  bottom : Int
  left : Int
deriving DecidableEq

/-- The quantities the fallback liveness heuristic measures on an image:
the detected face boxes, the pixel count of the cropped face region
(`face_region.size`), the grayscale standard deviation inside the face region
(`np.std(face_region)`) and the whole-frame mean brightness (`np.mean(gray)`). -/
structure ImageAnalysis where
  face_locations : List FaceBox
  face_region_size : Nat
  face_region_std : ℚ
  mean_brightness : ℚ
deriving DecidableEq

/-- The fallback ("basic") liveness heuristic of `enhanced_liveness_check`
(main.py lines 130-184).  Blur analysis is commented out in the source and so
does not appear here. -/
def basic_liveness_check (img : ImageAnalysis) : LivenessResult :=
  match img.face_locations with
  | [box] =>
    let face_height := box.bottom - box.top
    let face_width := box.right - box.left
    if face_height < 100 ∨ face_width < 100 then
      ⟨false, 3/10, "Face too small. Please move closer to the camera."⟩
    else if 0 < img.face_region_size ∧ img.face_region_std < 20 then
      ⟨false, 4/10, "Low image contrast. This might be a photo. Please ensure you're a real person."⟩
    else if img.mean_brightness < 20 ∨ 240 < img.mean_brightness then
      ⟨false, 3/10, "Extreme lighting conditions. Please adjust lighting."⟩
    else
      ⟨true, 8/10, "Basic liveness check passed"⟩
  | _ =>
    ⟨false, 1/10, "Please ensure only one face is visible in the camera."⟩

/-- The `try/except` wrapper around the fallback heuristic (main.py lines
131, 185-191): the body's image analysis either completes, or raises with some
exception message, in which case the handler returns the fail-open result. -/
def basic_liveness_check_caught (analysis : Except String ImageAnalysis) : LivenessResult :=
  match analysis with
  | Except.ok img => basic_liveness_check img
  | Except.error _ => ⟨true, 1/2, "Liveness check completed with warnings"⟩

/-- Full `enhanced_liveness_check` dispatch (main.py lines 107-191):
demo mode when face recognition is unavailable; otherwise the advanced detector
when present and not raising (its result surfaced verbatim); otherwise the
fallback heuristic guarded by the `try/except`. -/
def enhanced_liveness_check (fr_available : Bool)
    (advanced : Option (Except String LivenessResult))
    (analysis : Except String ImageAnalysis) : LivenessResult :=
  if fr_available = false then
    ⟨true, 95/100, "Liveness check skipped (demo mode)"⟩
  else
    match advanced with
    | some (Except.ok r) => r
    | some (Except.error _) => basic_liveness_check_caught analysis
    | none => basic_liveness_check_caught analysis

/-- Response shape of the `/recognize` endpoint on the paths the claims are
about.  The source writes `confidence` on some paths only; `none` marks its
absence. -/
structure RecognizeResponse where
  success : Bool
  recognized : Bool
  liveness_check : Bool
  confidence : Option ℚ
  message : String
deriving DecidableEq

/-- Decision core of `recognize_face` (main.py lines 315-459).  Parameters are
the environment the handler reads: the capability flags, the liveness verdict,
the number of face encodings found in the frame, whether the user row exists,
the stored encoding (if enrolled) and the Euclidean face distance computed by
`face_recognition.face_distance`; `compare_faces` with `tolerance=0.6` matches
when the distance is at most 6/10. -/
def recognize_face (fr_available supabase_available : Bool)
    (liveness : LivenessResult) (encodingCount : Nat) (userFound : Bool)
    (stored_encoding : Option (List ℚ)) (face_distance : ℚ) : RecognizeResponse :=
  if liveness.passed = false then
    ⟨true, false, false, some liveness.confidence, liveness.message⟩
  else if fr_available = false then
    ⟨true, true, true, some (95/100), "Face recognized successfully (demo mode)"⟩
  else if encodingCount = 0 then
    ⟨true, false, true, none, "No face detected in the image."⟩
  else if 1 < encodingCount then
    ⟨true, false, true, none, "Multiple faces detected. Please ensure only one face is visible."⟩
  else if supabase_available = false then
    ⟨true, true, true, some (95/100), "Face recognized successfully (demo mode)"⟩
  else if userFound = false then
    ⟨true, false, true, none, "User not found. Please ensure you are registered."⟩
  else
    match stored_encoding with
    | none => ⟨true, false, true, none, "No enrolled face found. Please enroll your face first."⟩
    | some _ =>
      if face_distance ≤ 6/10 then
        ⟨true, true, true, some (1 - face_distance), "Face recognized successfully"⟩
      else
        ⟨true, false, true, some (1 - face_distance), "Face not recognized"⟩

/-- A row of the `users` table (the columns the core handlers read). -/
structure User where
  id : Nat
  firebase_id : String
  name : String
  role : String
deriving DecidableEq

/-- A row of the `classes` table. -/
structure ClassRow where
  id : Nat
  name : String
  teacher_id : Nat
deriving DecidableEq

/-- A row of the `class_enrollments` table. -/
structure Enrollment where
  id : Nat
  class_id : Nat
  student_id : Nat
  status : String
  enrolled_at : Nat
  approved_at : Option Nat
deriving DecidableEq

/-- A row of the `face_encodings` table (upserted keyed on `user_id`). -/
structure FaceEncodingRow where
  user_id : Nat
  encoding : List ℚ
deriving DecidableEq

/-- A row of the `attendance` table. -/
structure AttendanceRecord where
  id : Nat
  student_id : Nat
  class_id : Nat
  slot_number : Nat
  day_of_week : Nat
  attendance_date : String
  status : String
  marked_by : String
  created_at : Nat
  updated_at : Option Nat
deriving DecidableEq

/-- The external Supabase database as the handlers see it.  `next_id` models
the id the store would assign to the next inserted row. -/
structure DB where
  users : List User
  classes : List ClassRow
  enrollments : List Enrollment
  face_encodings : List FaceEncodingRow
  attendance : List AttendanceRecord
  next_id : Nat
deriving DecidableEq

/-- Value stored in the in-memory `instant_passwords` dict for one code
(main.py lines 1736-1742). -/
structure PasswordData where
  class_id : Nat
  slot_number : Nat
  teacher_id : Nat
  expires_at : Nat
  created_at : Nat
deriving DecidableEq

/-- The mutable state the instant-attendance handlers touch: the database and
the process-local `instant_passwords` dict (an association list; inserting a
key first drops any previous binding, like Python dict assignment). -/
structure SysState where
  db : DB
  instant_passwords : List (String × PasswordData)
deriving DecidableEq

/-- A handler response, reduced to the `success` flag and `message` string. -/
structure ApiResponse where
  success : Bool
  message : String
deriving DecidableEq

/-- `supabase.table("users").select(...).eq("firebase_id", fid)` followed by
taking `data[0]`. -/
def findUserByFirebase (db : DB) (fid : String) : Option User :=
  db.users.find? (fun u => u.firebase_id == fid)

/-- `supabase.table("classes").select(...).eq("id", class_id).eq("teacher_id", teacher_id)`
followed by taking `data[0]`. -/
def findClassOfTeacher (db : DB) (class_id teacher_id : Nat) : Option ClassRow :=
  db.classes.find? (fun c => c.id == class_id && c.teacher_id == teacher_id)

/-- The attendance uniqueness key used by every mark path:
`(student_id, class_id, slot_number, attendance_date)`. -/
def attendanceKey (sid cid slot : Nat) (date : String) (r : AttendanceRecord) : Bool :=
  r.student_id == sid && r.class_id == cid && r.slot_number == slot && r.attendance_date == date

/-- `supabase.table("attendance").select(...).eq(...)...` on the full key:
all rows matching the key, in table order. -/
def existingAttendance (db : DB) (sid cid slot : Nat) (date : String) : List AttendanceRecord :=
  db.attendance.filter (attendanceKey sid cid slot date)

/-- `enroll_face` (main.py lines 197-313), production path
(`FACE_RECOGNITION_AVAILABLE` and `SUPABASE_AVAILABLE` true): liveness, then
encoding count, then user lookup, then the student-role gate, then an upsert of
the face encoding keyed on the user's database id.  The best-effort profile
photo write touches no table the claims are about and is elided. -/
def enroll_face (db : DB) (liveness : LivenessResult) (encodings : List (List ℚ))
    (user_fid : String) : ApiResponse × DB :=
  if liveness.passed = false then
    (⟨false, liveness.message⟩, db)
  else if encodings.length = 0 then
    (⟨false, "No face detected in the image. Please try again."⟩, db)
  else if 1 < encodings.length then
    (⟨false, "Multiple faces detected. Please ensure only one face is visible."⟩, db)
  else
    match findUserByFirebase db user_fid with
    | none => (⟨false, "User not found. Please ensure you are registered."⟩, db)
    | some u =>
      if u.role ≠ "student" then
        (⟨false, "Face enrollment is only available for students."⟩, db)
      else
        (⟨true, "Face enrolled successfully"⟩,
         { db with face_encodings :=
             ⟨u.id, encodings.headD []⟩ :: db.face_encodings.filter (fun r => r.user_id != u.id) })

/-- Stateful wrapper of the `/recognize` handler: its production path issues
only `select` queries, so the database is returned as received (main.py lines
315-459 contain no insert, update, upsert or delete). -/
def recognize_face_endpoint (db : DB) (liveness : LivenessResult) (encodingCount : Nat)
    (user_fid : String) (face_distance : ℚ) : RecognizeResponse × DB :=
  let user := findUserByFirebase db user_fid
  let stored := match user with
    | none => none
    | some u => (db.face_encodings.find? (fun r => r.user_id == u.id)).map FaceEncodingRow.encoding
  (recognize_face true true liveness encodingCount user.isSome stored face_distance, db)

/-- `generate_instant_password` (main.py lines 1699-1756), production path.
`generated` is the outcome of `random.randint(100000, 999999)`; the TTL is 3
minutes = 180 seconds.  Note the source stores the code unconditionally:
`instant_passwords[password] = {...}` replaces any live session under the same
code (there is no collision retry loop). -/
def generate_instant_password (st : SysState) (now : Nat) (generated : String)
    (class_id slot_number : Nat) (teacher_fid : String) : ApiResponse × SysState :=
  match findUserByFirebase st.db teacher_fid with
  | none => (⟨false, "Teacher not found"⟩, st)
  | some teacher =>
    match findClassOfTeacher st.db class_id teacher.id with
    | none => (⟨false, "Unauthorized or class not found"⟩, st)
    | some _ =>
      (⟨true, "Instant password generated successfully"⟩,
       { st with instant_passwords :=
           (generated, ⟨class_id, slot_number, teacher.id, now + 180, now⟩) ::
             st.instant_passwords.filter (fun p => p.1 != generated) })

/-- Tail of `validate_instant_password` after the enrollment step (main.py
lines 1904-1933): fetch class info (response payload, abstracted), then a
read-only check of the attendance table; `AlreadyMarked` keeps a fixed message
prefix in place of the formatted original mark time. -/
def validate_tail (st : SysState) (today : String) (pd : PasswordData)
    (student : User) : ApiResponse × SysState :=
  match existingAttendance st.db student.id pd.class_id pd.slot_number today with
  | _ :: _ =>
    (⟨false, "Attendance already marked for slot " ++ toString pd.slot_number ++ " today"⟩, st)
  | [] =>
    (⟨true, "Password validated successfully. Please proceed with face recognition."⟩, st)

/-- `validate_instant_password` (main.py lines 1809-1940), production path.
The student row is fetched with `select("id, name")` - no role column, hence no
role gate on this path.  In the auto-approve branch the source reads
`enrollment_result.data[0]["id"]` although only `status` was selected, so that
update raises `KeyError` inside its `try` and the handler returns the pending
message without writing; the branch is modelled accordingly. -/
def validate_instant_password (st : SysState) (now : Nat) (today : String)
    (password student_fid : String) : ApiResponse × SysState :=
  if password = "" then (⟨false, "Password is required"⟩, st)
  else if student_fid = "" then (⟨false, "Student ID is required"⟩, st)
  else
    match st.instant_passwords.lookup password with
    | none => (⟨false, "Invalid or expired password. Please check with your teacher."⟩, st)
    | some pd =>
      if pd.expires_at < now then
        (⟨false, "Password has expired during face recognition. Please ask your teacher for a new one."⟩,
         { st with instant_passwords := st.instant_passwords.filter (fun p => p.1 != password) })
      else
        match findUserByFirebase st.db student_fid with
        | none => (⟨false, "Student not found. Please contact support."⟩, st)
        | some student =>
          match st.db.enrollments.find? (fun e => e.student_id == student.id && e.class_id == pd.class_id) with
          | none =>
            let db1 := { st.db with
              enrollments := st.db.enrollments ++
                [⟨st.db.next_id, pd.class_id, student.id, "approved", now, some now⟩],
              next_id := st.db.next_id + 1 }
            validate_tail { st with db := db1 } today pd student
          | some e =>
            if e.status ≠ "approved" then
              (⟨false, "Your enrollment is pending teacher approval."⟩, st)
            else
              validate_tail st today pd student

/-- Tail of `mark_instant_attendance` after the enrollment step (main.py lines
2039-2083): check the attendance key, then insert a `present` record with
`marked_by = "instant_password"`. -/
def mark_tail (st : SysState) (now : Nat) (today : String) (dow : Nat)
    (pd : PasswordData) (student : User) : ApiResponse × SysState :=
  match existingAttendance st.db student.id pd.class_id pd.slot_number today with
  | _ :: _ =>
    (⟨false, "Attendance already marked for slot " ++ toString pd.slot_number ++ " today"⟩, st)
  | [] =>
    let newRecord : AttendanceRecord :=
      ⟨st.db.next_id, student.id, pd.class_id, pd.slot_number, dow, today,
       "present", "instant_password", now, none⟩
    (⟨true, "Attendance marked successfully for " ++ student.name⟩,
     { st with db := { st.db with
         attendance := st.db.attendance ++ [newRecord],
         next_id := st.db.next_id + 1 } })

/-- `mark_instant_attendance` (main.py lines 1942-2090), production path.
Unlike `validate_instant_password`, the student row is fetched with
`select("id, name, role")` and non-students are rejected; the enrollment row is
fetched with `select("id, status")` so the auto-approve update succeeds here. -/
def mark_instant_attendance (st : SysState) (now : Nat) (today : String) (dow : Nat)
    (password student_fid : String) : ApiResponse × SysState :=
  if password = "" then (⟨false, "Password is required"⟩, st)
  else if student_fid = "" then (⟨false, "Student ID is required"⟩, st)
  else
    match st.instant_passwords.lookup password with
    | none => (⟨false, "Invalid or expired password. Please check with your teacher."⟩, st)
    | some pd =>
      if pd.expires_at < now then
        (⟨false, "Password has expired. Please ask your teacher for a new one."⟩,
         { st with instant_passwords := st.instant_passwords.filter (fun p => p.1 != password) })
      else
        match findUserByFirebase st.db student_fid with
        | none => (⟨false, "Student account not found. Please contact your teacher."⟩, st)
        | some student =>
          if student.role ≠ "student" then
            (⟨false, "Only students can mark attendance using instant passwords"⟩, st)
          else
            match st.db.enrollments.find? (fun e => e.class_id == pd.class_id && e.student_id == student.id) with
            | none =>
              let db1 := { st.db with
                enrollments := st.db.enrollments ++
                  [⟨st.db.next_id, pd.class_id, student.id, "approved", now, some now⟩],
                next_id := st.db.next_id + 1 }
              mark_tail { st with db := db1 } now today dow pd student
            | some e =>
              if e.status ≠ "approved" then
                let db1 := { st.db with
                  enrollments := st.db.enrollments.map (fun x =>
                    if x.id == e.id then { x with status := "approved", approved_at := some now } else x) }
                mark_tail { st with db := db1 } now today dow pd student
              else
                mark_tail st now today dow pd student

/-- The update the manual-mark handler applies to the row whose id it found
(main.py lines 2137-2141): set status, `marked_by = "teacher"`, `updated_at`. -/
def manualUpdate (tid : Nat) (status : String) (now : Nat) (a : AttendanceRecord) : AttendanceRecord :=
  if a.id == tid then { a with status := status, marked_by := "teacher", updated_at := some now } else a

/-- `mark_manual_attendance` (main.py lines 2092-2171), production path:
teacher lookup, class-ownership check, student lookup, then look up the
attendance key and either update the first found row by its id or insert a new
record. -/
def mark_manual_attendance (db : DB) (now : Nat) (today : String) (dow : Nat)
    (student_fid : String) (class_id slot_number : Nat) (status : String)
    (teacher_fid : String) : ApiResponse × DB :=
  match findUserByFirebase db teacher_fid with
  | none => (⟨false, "Teacher not found"⟩, db)
  | some teacher =>
    match findClassOfTeacher db class_id teacher.id with
    | none => (⟨false, "Unauthorized or class not found"⟩, db)
    | some _ =>
      match findUserByFirebase db student_fid with
      | none => (⟨false, "Student not found"⟩, db)
      | some student =>
        match existingAttendance db student.id class_id slot_number today with
        | r :: _ =>
          (⟨true, "Attendance marked as " ++ status⟩,
           { db with attendance := db.attendance.map (manualUpdate r.id status now) })
        | [] =>
          let newRecord : AttendanceRecord :=
            ⟨db.next_id, student.id, class_id, slot_number, dow, today, status, "teacher", now, none⟩
          (⟨true, "Attendance marked as " ++ status⟩,
           { db with attendance := db.attendance ++ [newRecord], next_id := db.next_id + 1 })

/-! Theorems -/

/-- An image the face detector finds no face in. -/
def imgNoFace : ImageAnalysis := ⟨[], 0, 0, 128⟩

/-- An image the face detector finds two faces in. -/
def imgTwoFaces : ImageAnalysis := ⟨[⟨0, 200, 200, 0⟩, ⟨0, 400, 200, 210⟩], 40000, 50, 128⟩

/-- C10: if the fallback liveness heuristic's own analysis raises any internal
exception, the result is `passed = true` with confidence 1/2 - the heuristic
fails open, treating an image that crashes the analysis as live; the same holds
through the `enhanced_liveness_check` dispatch whether the advanced model is
absent or has itself already failed. -/
theorem liveness_fallback_fails_open :
    ∀ exc : String,
      basic_liveness_check_caught (Except.error exc) =
        ⟨true, 1/2, "Liveness check completed with warnings"⟩ ∧
      enhanced_liveness_check true none (Except.error exc) =
        ⟨true, 1/2, "Liveness check completed with warnings"⟩ ∧
      ∀ advExc : String,
        enhanced_liveness_check true (some (Except.error advExc)) (Except.error exc) =
          ⟨true, 1/2, "Liveness check completed with warnings"⟩ :=
  fun _ => ⟨rfl, rfl, fun _ => rfl⟩

/-- C5 counterexample: the fallback heuristic rejects a zero-face image and a
two-face image with confidence 1/10 but with the SAME message, not distinct
ones as the claim states. -/
theorem liveness_zero_and_multiple_faces_share_message :
    (basic_liveness_check imgNoFace).passed = false ∧
    (basic_liveness_check imgNoFace).confidence = 1/10 ∧
    (basic_liveness_check imgTwoFaces).passed = false ∧
    (basic_liveness_check imgTwoFaces).confidence = 1/10 ∧
    (basic_liveness_check imgNoFace).message = (basic_liveness_check imgTwoFaces).message :=
  ⟨rfl, rfl, rfl, rfl, rfl⟩

/-- C5 as amended: the fallback heuristic follows the claimed steps in order
with the claimed confidences, except that zero faces and multiple faces share
one rejection message: fail 1/10 unless exactly one face; fail 3/10 when the
face box is under 100x100; fail 4/10 when the (nonempty) face region's
grayscale standard deviation is below 20; fail 3/10 when whole-frame mean
brightness leaves [20, 240]; otherwise pass 8/10. -/
theorem basic_liveness_check_steps (img : ImageAnalysis) :
    (img.face_locations.length ≠ 1 →
      basic_liveness_check img =
        ⟨false, 1/10, "Please ensure only one face is visible in the camera."⟩) ∧
    (∀ box, img.face_locations = [box] →
      (box.bottom - box.top < 100 ∨ box.right - box.left < 100) →
      basic_liveness_check img =
        ⟨false, 3/10, "Face too small. Please move closer to the camera."⟩) ∧
    (∀ box, img.face_locations = [box] →
      ¬(box.bottom - box.top < 100 ∨ box.right - box.left < 100) →
      0 < img.face_region_size → img.face_region_std < 20 →
      basic_liveness_check img =
        ⟨false, 4/10, "Low image contrast. This might be a photo. Please ensure you're a real person."⟩) ∧
    (∀ box, img.face_locations = [box] →
      ¬(box.bottom - box.top < 100 ∨ box.right - box.left < 100) →
      ¬(0 < img.face_region_size ∧ img.face_region_std < 20) →
      (img.mean_brightness < 20 ∨ 240 < img.mean_brightness) →
      basic_liveness_check img =
        ⟨false, 3/10, "Extreme lighting conditions. Please adjust lighting."⟩) ∧
    (∀ box, img.face_locations = [box] →
      ¬(box.bottom - box.top < 100 ∨ box.right - box.left < 100) →
      ¬(0 < img.face_region_size ∧ img.face_region_std < 20) →
      ¬(img.mean_brightness < 20 ∨ 240 < img.mean_brightness) →
      basic_liveness_check img = ⟨true, 8/10, "Basic liveness check passed"⟩) := by
  refine ⟨?_, ?_, ?_, ?_, ?_⟩
  · intro hlen
    cases hl : img.face_locations with
    | nil => simp only [basic_liveness_check, hl]
    | cons b t =>
      cases t with
      | nil => rw [hl] at hlen; simp at hlen
      | cons c t2 => simp only [basic_liveness_check, hl]
  · intro box hl hsmall
    simp only [basic_liveness_check, hl]
    rw [if_pos hsmall]
  · intro box hl hbig hsz hstd
    simp only [basic_liveness_check, hl]
    rw [if_neg hbig, if_pos ⟨hsz, hstd⟩]
  · intro box hl hbig hcontrast hbr
    simp only [basic_liveness_check, hl]
    rw [if_neg hbig, if_neg hcontrast, if_pos hbr]
  · intro box hl hbig hcontrast hbr
    simp only [basic_liveness_check, hl]
    rw [if_neg hbig, if_neg hcontrast, if_neg hbr]

/-- Witness for the amended C5 theorem: each step at a concrete image. -/
theorem basic_liveness_check_steps_witness :
    basic_liveness_check imgNoFace =
      ⟨false, 1/10, "Please ensure only one face is visible in the camera."⟩ ∧
    basic_liveness_check ⟨[⟨0, 50, 50, 0⟩], 2500, 50, 128⟩ =
      ⟨false, 3/10, "Face too small. Please move closer to the camera."⟩ ∧
    basic_liveness_check ⟨[⟨0, 200, 200, 0⟩], 40000, 5, 128⟩ =
      ⟨false, 4/10, "Low image contrast. This might be a photo. Please ensure you're a real person."⟩ ∧
    basic_liveness_check ⟨[⟨0, 200, 200, 0⟩], 40000, 50, 10⟩ =
      ⟨false, 3/10, "Extreme lighting conditions. Please adjust lighting."⟩ ∧
    basic_liveness_check ⟨[⟨0, 200, 200, 0⟩], 40000, 50, 128⟩ =
      ⟨true, 8/10, "Basic liveness check passed"⟩ :=
  ⟨(basic_liveness_check_steps imgNoFace).1 (by norm_num [imgNoFace]),
   (basic_liveness_check_steps _).2.1 ⟨0, 50, 50, 0⟩ rfl (by norm_num),
   (basic_liveness_check_steps _).2.2.1 ⟨0, 200, 200, 0⟩ rfl (by norm_num) (by norm_num)
     (by norm_num),
   (basic_liveness_check_steps _).2.2.2.1 ⟨0, 200, 200, 0⟩ rfl (by norm_num) (by norm_num)
     (by norm_num),
   (basic_liveness_check_steps _).2.2.2.2 ⟨0, 200, 200, 0⟩ rfl (by norm_num) (by norm_num)
     (by norm_num)⟩

/-- C6: in the verification workflow, liveness is evaluated first and its
failure returns `recognized = false, liveness_check = false` immediately, for
every value of the later inputs (so no encoding or matching influences the
result); with liveness passed, zero or multiple encodings give
`recognized = false, liveness_check = true` with the corresponding message; a
missing stored embedding gives the not-enrolled outcome, whose message differs
from the over-tolerance non-match outcome's. -/
theorem recognize_face_flow :
    (∀ (lv : LivenessResult) (n : Nat) (uf : Bool) (se : Option (List ℚ)) (d : ℚ),
      lv.passed = false →
      recognize_face true true lv n uf se d =
        ⟨true, false, false, some lv.confidence, lv.message⟩) ∧
    (∀ (lv : LivenessResult) (uf : Bool) (se : Option (List ℚ)) (d : ℚ),
      lv.passed = true →
      recognize_face true true lv 0 uf se d =
        ⟨true, false, true, none, "No face detected in the image."⟩) ∧
    (∀ (lv : LivenessResult) (n : Nat) (uf : Bool) (se : Option (List ℚ)) (d : ℚ),
      lv.passed = true → 1 < n →
      recognize_face true true lv n uf se d =
        ⟨true, false, true, none, "Multiple faces detected. Please ensure only one face is visible."⟩) ∧
    (∀ (lv : LivenessResult) (d : ℚ),
      lv.passed = true →
      recognize_face true true lv 1 true none d =
        ⟨true, false, true, none, "No enrolled face found. Please enroll your face first."⟩) ∧
    (∀ (lv : LivenessResult) (e : List ℚ) (d : ℚ),
      lv.passed = true → ¬(d ≤ 6/10) →
      recognize_face true true lv 1 true (some e) d =
        ⟨true, false, true, some (1 - d), "Face not recognized"⟩) ∧
    ("No enrolled face found. Please enroll your face first." ≠
      ("Face not recognized" : String)) := by
  refine ⟨?_, ?_, ?_, ?_, ?_, by decide⟩
  · intro lv n uf se d h
    simp [recognize_face, h]
  · intro lv uf se d h
    simp [recognize_face, h]
  · intro lv n uf se d h hn
    simp [recognize_face, h, Nat.pos_iff_ne_zero.mp (Nat.lt_of_succ_lt hn), hn]
  · intro lv d h
    simp [recognize_face, h]
  · intro lv e d h hd
    simp [recognize_face, h, hd]

/-- Witness for the C6 theorem: each verification outcome at concrete inputs. -/
theorem recognize_face_flow_witness :
    recognize_face true true ⟨false, 1/10, "m"⟩ 5 true (some [1]) 0 =
      ⟨true, false, false, some (1/10), "m"⟩ ∧
    recognize_face true true ⟨true, 8/10, "ok"⟩ 0 true (some [1]) 0 =
      ⟨true, false, true, none, "No face detected in the image."⟩ ∧
    recognize_face true true ⟨true, 8/10, "ok"⟩ 2 true (some [1]) 0 =
      ⟨true, false, true, none, "Multiple faces detected. Please ensure only one face is visible."⟩ ∧
    recognize_face true true ⟨true, 8/10, "ok"⟩ 1 true none 0 =
      ⟨true, false, true, none, "No enrolled face found. Please enroll your face first."⟩ ∧
    recognize_face true true ⟨true, 8/10, "ok"⟩ 1 true (some [1]) 1 =
      ⟨true, false, true, some (1 - 1), "Face not recognized"⟩ :=
  ⟨recognize_face_flow.1 ⟨false, 1/10, "m"⟩ 5 true (some [1]) 0 rfl,
   recognize_face_flow.2.1 ⟨true, 8/10, "ok"⟩ true (some [1]) 0 rfl,
   recognize_face_flow.2.2.1 ⟨true, 8/10, "ok"⟩ 2 true (some [1]) 0 rfl (by norm_num),
   recognize_face_flow.2.2.2.1 ⟨true, 8/10, "ok"⟩ 0 rfl,
   recognize_face_flow.2.2.2.2.1 ⟨true, 8/10, "ok"⟩ [1] 1 rfl (by norm_num)⟩

/-- Helper: `validate_tail` returns its state unchanged on both of its paths. -/
theorem validate_tail_state (st : SysState) (today : String) (pd : PasswordData)
    (student : User) : (validate_tail st today pd student).2 = st := by
  unfold validate_tail
  split <;> rfl

/-- Helper: looking up a key after filtering that key out of a Python-dict
association list finds nothing. -/
theorem lookup_filter_self {β : Type} (l : List (String × β)) (k : String) :
    (l.filter (fun p => p.1 != k)).lookup k = none := by
  induction l with
  | nil => rfl
  | cons hd tl ih =>
    obtain ⟨a, b⟩ := hd
    rw [List.filter_cons]
    by_cases h : a = k
    · simpa [h] using ih
    · rw [if_pos (by simpa using h), List.lookup_cons]
      have hba : (k == a) = false := by simp [Ne.symm h]
      rw [hba]
      exact ih

/-- C4: neither the face verification operation (`recognize_face`) nor the OTP
validation operation (`validate_instant_password`) writes an attendance record:
on every path, successful or failing, verification leaves the whole database
unchanged and validation leaves the attendance table unchanged. -/
theorem verify_and_validate_never_write_attendance :
    (∀ (db : DB) (lv : LivenessResult) (n : Nat) (fid : String) (d : ℚ),
      (recognize_face_endpoint db lv n fid d).2 = db) ∧
    (∀ (st : SysState) (now : Nat) (today pw fid : String),
      ((validate_instant_password st now today pw fid).2).db.attendance = st.db.attendance) := by
  constructor
  · intro db lv n fid d
    rfl
  · intro st now today pw fid
    unfold validate_instant_password
    split
    · rfl
    · split
      · rfl
      · split
        · rfl
        · split
          · rfl
          · split
            · rfl
            · split
              · rw [validate_tail_state]
              · split
                · rfl
                · rw [validate_tail_state]

/-- C3: validating or consuming an OTP code whose session has
`expires_at < now` always fails (never reports the code valid), with the
expired-password message, and the session is purged from the active map by that
very lookup. -/
theorem expired_code_rejected_and_purged
    (st : SysState) (now : Nat) (today : String) (dow : Nat)
    (password student_fid : String) (pd : PasswordData)
    (hpw : password ≠ "") (hfid : student_fid ≠ "")
    (hlook : st.instant_passwords.lookup password = some pd)
    (hexp : pd.expires_at < now) :
    (validate_instant_password st now today password student_fid).1.success = false ∧
    (validate_instant_password st now today password student_fid).1.message =
      "Password has expired during face recognition. Please ask your teacher for a new one." ∧
    ((validate_instant_password st now today password student_fid).2).instant_passwords.lookup password = none ∧
    (mark_instant_attendance st now today dow password student_fid).1.success = false ∧
    (mark_instant_attendance st now today dow password student_fid).1.message =
      "Password has expired. Please ask your teacher for a new one." ∧
    ((mark_instant_attendance st now today dow password student_fid).2).instant_passwords.lookup password = none := by
  refine ⟨?_, ?_, ?_, ?_, ?_, ?_⟩ <;>
    simp only [validate_instant_password, mark_instant_attendance, if_neg hpw, if_neg hfid,
      hlook, if_pos hexp, lookup_filter_self]

/-- Concrete state for the C3 witness: one student and one session that
expired at time 100. -/
def stC3 : SysState :=
  ⟨⟨[⟨1, "a", "A", "student"⟩], [], [], [], [], 7⟩, [("777777", ⟨1, 1, 9, 100, 0⟩)]⟩

/-- Witness for the C3 theorem at time 200 on the concrete expired state. -/
theorem expired_code_rejected_and_purged_witness :
    (validate_instant_password stC3 200 "2026-01-05" "777777" "a").1.success = false ∧
    (validate_instant_password stC3 200 "2026-01-05" "777777" "a").1.message =
      "Password has expired during face recognition. Please ask your teacher for a new one." ∧
    ((validate_instant_password stC3 200 "2026-01-05" "777777" "a").2).instant_passwords.lookup "777777" = none ∧
    (mark_instant_attendance stC3 200 "2026-01-05" 1 "777777" "a").1.success = false ∧
    (mark_instant_attendance stC3 200 "2026-01-05" 1 "777777" "a").1.message =
      "Password has expired. Please ask your teacher for a new one." ∧
    ((mark_instant_attendance stC3 200 "2026-01-05" 1 "777777" "a").2).instant_passwords.lookup "777777" = none :=
  expired_code_rejected_and_purged stC3 200 "2026-01-05" 1 "777777" "a" ⟨1, 1, 9, 100, 0⟩
    (by decide) (by decide) rfl (by decide)

/-- Helper: the manual update only touches status, marked_by and updated_at,
so membership in an attendance key is unchanged by it. -/
theorem attendanceKey_manualUpdate (sid cid slot : Nat) (d : String) (tid : Nat)
    (s : String) (n : Nat) (a : AttendanceRecord) :
    attendanceKey sid cid slot d (manualUpdate tid s n a) = attendanceKey sid cid slot d a := by
  unfold manualUpdate
  split <;> rfl

/-- Helper: the manual update keeps the row id. -/
theorem manualUpdate_id (tid : Nat) (s : String) (n : Nat) (a : AttendanceRecord) :
    (manualUpdate tid s n a).id = a.id := by
  unfold manualUpdate
  split <;> rfl

/-- Helper: the manual update applied to the targeted row itself. -/
theorem manualUpdate_self (s : String) (n : Nat) (a : AttendanceRecord) :
    manualUpdate a.id s n a = { a with status := s, marked_by := "teacher", updated_at := some n } := by
  unfold manualUpdate
  simp

/-- Helper: filtering an attendance key commutes with mapping the manual
update, because the update preserves the key fields. -/
theorem filter_key_map_manualUpdate (l : List AttendanceRecord) (sid cid slot : Nat)
    (d : String) (tid : Nat) (s : String) (n : Nat) :
    (l.map (manualUpdate tid s n)).filter (attendanceKey sid cid slot d) =
      (l.filter (attendanceKey sid cid slot d)).map (manualUpdate tid s n) := by
  induction l with
  | nil => rfl
  | cons hd tl ih =>
    simp only [List.map_cons, List.filter_cons, attendanceKey_manualUpdate]
    cases h : attendanceKey sid cid slot d hd <;> simp [h, ih]

/-- Helper: evaluation of the manual mark on the insert path (no existing
record for the key). -/
theorem mark_manual_attendance_insert
    (db : DB) (now : Nat) (today : String) (dow : Nat)
    (student_fid teacher_fid : String) (class_id slot_number : Nat) (status : String)
    (teacher student : User) (cls : ClassRow)
    (hT : findUserByFirebase db teacher_fid = some teacher)
    (hC : findClassOfTeacher db class_id teacher.id = some cls)
    (hS : findUserByFirebase db student_fid = some student)
    (hE : existingAttendance db student.id class_id slot_number today = []) :
    mark_manual_attendance db now today dow student_fid class_id slot_number status teacher_fid =
      (⟨true, "Attendance marked as " ++ status⟩,
       { db with
         attendance := db.attendance ++
           [⟨db.next_id, student.id, class_id, slot_number, dow, today, status, "teacher", now, none⟩],
         next_id := db.next_id + 1 }) := by
  unfold mark_manual_attendance
  simp only [hT, hC, hS, hE]

/-- Helper: evaluation of the manual mark on the update path (an existing
record for the key was found; the first one's id is targeted). -/
theorem mark_manual_attendance_update
    (db : DB) (now : Nat) (today : String) (dow : Nat)
    (student_fid teacher_fid : String) (class_id slot_number : Nat) (status : String)
    (teacher student : User) (cls : ClassRow) (r : AttendanceRecord) (rest : List AttendanceRecord)
    (hT : findUserByFirebase db teacher_fid = some teacher)
    (hC : findClassOfTeacher db class_id teacher.id = some cls)
    (hS : findUserByFirebase db student_fid = some student)
    (hE : existingAttendance db student.id class_id slot_number today = r :: rest) :
    mark_manual_attendance db now today dow student_fid class_id slot_number status teacher_fid =
      (⟨true, "Attendance marked as " ++ status⟩,
       { db with attendance := db.attendance.map (manualUpdate r.id status now) }) := by
  unfold mark_manual_attendance
  simp only [hT, hC, hS, hE]

/-- C1: marking manual attendance twice in sequence for the same
(student, class, slot, date) key with two different statuses leaves exactly one
record for that key, and its status is the second call's status (the existing
record is updated, never duplicated), provided the key had at most one record
to begin with. -/
theorem mark_manual_twice_single_record
    (db db1 db2 : DB) (now1 now2 : Nat) (today : String) (dow : Nat)
    (student_fid teacher_fid : String) (class_id slot_number : Nat)
    (s1 s2 : String) (teacher student : User) (cls : ClassRow)
    (hT : findUserByFirebase db teacher_fid = some teacher)
    (hC : findClassOfTeacher db class_id teacher.id = some cls)
    (hS : findUserByFirebase db student_fid = some student)
    (hKey : (existingAttendance db student.id class_id slot_number today).length ≤ 1)
    (hdiff : s1 ≠ s2)
    (hdb1 : (mark_manual_attendance db now1 today dow student_fid class_id slot_number s1 teacher_fid).2 = db1)
    (hdb2 : (mark_manual_attendance db1 now2 today dow student_fid class_id slot_number s2 teacher_fid).2 = db2) :
    (existingAttendance db2 student.id class_id slot_number today).length = 1 ∧
    ∀ r ∈ existingAttendance db2 student.id class_id slot_number today, r.status = s2 := by
  cases hE : existingAttendance db student.id class_id slot_number today with
  | nil =>
    have hdb1' : db1 = { db with
        attendance := db.attendance ++
          [⟨db.next_id, student.id, class_id, slot_number, dow, today, s1, "teacher", now1, none⟩],
        next_id := db.next_id + 1 } := by
      rw [← hdb1, mark_manual_attendance_insert db now1 today dow student_fid teacher_fid
        class_id slot_number s1 teacher student cls hT hC hS hE]
    have hT1 : findUserByFirebase db1 teacher_fid = some teacher := by rw [hdb1']; exact hT
    have hC1 : findClassOfTeacher db1 class_id teacher.id = some cls := by rw [hdb1']; exact hC
    have hS1 : findUserByFirebase db1 student_fid = some student := by rw [hdb1']; exact hS
    have hE1 : existingAttendance db1 student.id class_id slot_number today =
        [⟨db.next_id, student.id, class_id, slot_number, dow, today, s1, "teacher", now1, none⟩] := by
      rw [hdb1']
      show (db.attendance ++ _).filter _ = _
      rw [List.filter_append]
      rw [show db.attendance.filter (attendanceKey student.id class_id slot_number today) = []
        from hE]
      simp [attendanceKey]
    have hdb2' : db2 = { db1 with
        attendance := db1.attendance.map (manualUpdate
          (⟨db.next_id, student.id, class_id, slot_number, dow, today, s1, "teacher", now1,
            none⟩ : AttendanceRecord).id s2 now2) } := by
      rw [← hdb2, mark_manual_attendance_update db1 now2 today dow student_fid teacher_fid
        class_id slot_number s2 teacher student cls
        ⟨db.next_id, student.id, class_id, slot_number, dow, today, s1, "teacher", now1, none⟩
        [] hT1 hC1 hS1 hE1]
    constructor
    · rw [hdb2']
      show ((db1.attendance.map _).filter _).length = 1
      rw [filter_key_map_manualUpdate]
      rw [show db1.attendance.filter (attendanceKey student.id class_id slot_number today) = _
        from hE1]
      rfl
    · intro r hr
      rw [hdb2'] at hr
      simp only [existingAttendance] at hr
      rw [filter_key_map_manualUpdate] at hr
      rw [show db1.attendance.filter (attendanceKey student.id class_id slot_number today) = _
        from hE1] at hr
      simp only [List.map_cons, List.map_nil, List.mem_singleton] at hr
      subst hr
      simp [manualUpdate]
  | cons r0 rest =>
    have hrest : rest = [] := by
      rw [hE, List.length_cons] at hKey
      exact List.length_eq_zero.mp (by omega)
    subst hrest
    have hdb1' : db1 = { db with
        attendance := db.attendance.map (manualUpdate r0.id s1 now1) } := by
      rw [← hdb1, mark_manual_attendance_update db now1 today dow student_fid teacher_fid
        class_id slot_number s1 teacher student cls r0 [] hT hC hS hE]
    have hT1 : findUserByFirebase db1 teacher_fid = some teacher := by rw [hdb1']; exact hT
    have hC1 : findClassOfTeacher db1 class_id teacher.id = some cls := by rw [hdb1']; exact hC
    have hS1 : findUserByFirebase db1 student_fid = some student := by rw [hdb1']; exact hS
    have hE1 : existingAttendance db1 student.id class_id slot_number today =
        [manualUpdate r0.id s1 now1 r0] := by
      rw [hdb1']
      show (db.attendance.map _).filter _ = _
      rw [filter_key_map_manualUpdate]
      rw [show db.attendance.filter (attendanceKey student.id class_id slot_number today) = _
        from hE]
      rfl
    have hdb2' : db2 = { db1 with
        attendance := db1.attendance.map (manualUpdate (manualUpdate r0.id s1 now1 r0).id
          s2 now2) } := by
      rw [← hdb2, mark_manual_attendance_update db1 now2 today dow student_fid teacher_fid
        class_id slot_number s2 teacher student cls (manualUpdate r0.id s1 now1 r0)
        [] hT1 hC1 hS1 hE1]
    constructor
    · rw [hdb2']
      show ((db1.attendance.map _).filter _).length = 1
      rw [filter_key_map_manualUpdate]
      rw [show db1.attendance.filter (attendanceKey student.id class_id slot_number today) = _
        from hE1]
      rfl
    · intro r hr
      rw [hdb2'] at hr
      simp only [existingAttendance] at hr
      rw [filter_key_map_manualUpdate] at hr
      rw [show db1.attendance.filter (attendanceKey student.id class_id slot_number today) = _
        from hE1] at hr
      simp only [List.map_cons, List.map_nil, List.mem_singleton] at hr
      subst hr
      simp [manualUpdate]

/-- Concrete database for the C1 witness: a teacher owning class 1 and a
student, with no attendance rows yet. -/
def dbC1 : DB :=
  ⟨[⟨1, "t", "T", "teacher"⟩, ⟨2, "s", "S", "student"⟩], [⟨1, "C", 1⟩], [], [], [], 10⟩

/-- Witness for the C1 theorem: mark "present" then "absent" for the same key
on the concrete database; one record remains and it reads "absent". -/
theorem mark_manual_twice_single_record_witness :
    (existingAttendance (mark_manual_attendance (mark_manual_attendance dbC1 100 "2026-01-05" 1
        "s" 1 3 "present" "t").2 200 "2026-01-05" 1 "s" 1 3 "absent" "t").2 2 1 3
        "2026-01-05").length = 1 ∧
    ∀ r ∈ existingAttendance (mark_manual_attendance (mark_manual_attendance dbC1 100 "2026-01-05"
        1 "s" 1 3 "present" "t").2 200 "2026-01-05" 1 "s" 1 3 "absent" "t").2 2 1 3 "2026-01-05",
      r.status = "absent" :=
  mark_manual_twice_single_record dbC1 _ _ 100 200 "2026-01-05" 1 "s" "t" 1 3 "present" "absent"
    ⟨1, "t", "T", "teacher"⟩ ⟨2, "s", "S", "student"⟩ ⟨1, "C", 1⟩ (by decide) (by decide)
    (by decide) (by decide) (by decide) rfl rfl

/-- Concrete state for C2: two teachers with one class each; teacher 1's
session "123456" is live until time 500. -/
def stC2 : SysState :=
  ⟨⟨[⟨1, "tA", "A", "teacher"⟩, ⟨2, "tB", "B", "teacher"⟩],
    [⟨1, "C1", 1⟩, ⟨2, "C2", 2⟩], [], [], [], 50⟩,
   [("123456", ⟨1, 1, 1, 500, 0⟩)]⟩

/-- C2 counterexample: at time 10 the code "123456" is still Active (it expires
at 500 and belongs to teacher 1), yet issuing for teacher 2's class while the
generator draws the same code succeeds and stores the new session - the live
session is silently replaced; generation does not retry on collision. -/
theorem issue_overwrites_live_session_on_collision :
    stC2.instant_passwords.lookup "123456" = some ⟨1, 1, 1, 500, 0⟩ ∧
    (10 : Nat) < 500 ∧
    (generate_instant_password stC2 10 "123456" 2 1 "tB").1.success = true ∧
    (generate_instant_password stC2 10 "123456" 2 1 "tB").2.instant_passwords.lookup "123456" =
      some ⟨2, 1, 2, 190, 10⟩ ∧
    (⟨2, 1, 2, 190, 10⟩ : PasswordData) ≠ ⟨1, 1, 1, 500, 0⟩ := by
  decide

/-- Helper: after removing every pair with key k, filtering for key k finds
nothing. -/
theorem filter_eq_after_filter_ne {β : Type} (l : List (String × β)) (k : String) :
    (l.filter (fun p => p.1 != k)).filter (fun p => p.1 == k) = [] := by
  induction l with
  | nil => rfl
  | cons hd tl ih =>
    rw [List.filter_cons]
    by_cases h : hd.1 = k
    · simpa [h] using ih
    · rw [if_pos (by simpa using h), List.filter_cons, if_neg (by simp [h])]
      exact ih

/-- C2 as amended: the active map never holds two sessions under one code
because it is keyed by code - after an issue exactly one session is stored
under the generated code, namely the fresh one; on a collision with a live
session the new session overwrites it (the source does not retry). -/
theorem issue_single_session_per_code
    (st : SysState) (now : Nat) (generated : String) (class_id slot_number : Nat)
    (teacher_fid : String) (teacher : User) (cls : ClassRow)
    (hT : findUserByFirebase st.db teacher_fid = some teacher)
    (hC : findClassOfTeacher st.db class_id teacher.id = some cls) :
    (((generate_instant_password st now generated class_id slot_number teacher_fid).2).instant_passwords.filter
        (fun p => p.1 == generated)).length = 1 ∧
    ((generate_instant_password st now generated class_id slot_number teacher_fid).2).instant_passwords.lookup
        generated = some ⟨class_id, slot_number, teacher.id, now + 180, now⟩ := by
  have hg : generate_instant_password st now generated class_id slot_number teacher_fid =
      (⟨true, "Instant password generated successfully"⟩,
       { st with instant_passwords :=
           (generated, ⟨class_id, slot_number, teacher.id, now + 180, now⟩) ::
             st.instant_passwords.filter (fun p => p.1 != generated) }) := by
    unfold generate_instant_password
    simp only [hT, hC]
  rw [hg]
  constructor
  · show (((generated, _) :: _).filter _).length = 1
    rw [List.filter_cons, if_pos (by simp), filter_eq_after_filter_ne]
    rfl
  · show ((generated, _) :: _).lookup generated = _
    rw [List.lookup_cons]
    simp

/-- Witness for the amended C2 theorem: issuing a fresh code on the concrete
state stores exactly one session under it. -/
theorem issue_single_session_per_code_witness :
    (((generate_instant_password stC2 10 "654321" 1 4 "tA").2).instant_passwords.filter
        (fun p => p.1 == "654321")).length = 1 ∧
    ((generate_instant_password stC2 10 "654321" 1 4 "tA").2).instant_passwords.lookup
        "654321" = some ⟨1, 4, 1, 190, 10⟩ :=
  issue_single_session_per_code stC2 10 "654321" 1 4 "tA" ⟨1, "tA", "A", "teacher"⟩
    ⟨1, "C1", 1⟩ (by decide) (by decide)

/-- Concrete state for C7: a lone user with role "teacher" and a live session
"111222" for class 1 (expires at 1000). -/
def stC7 : SysState :=
  ⟨⟨[⟨5, "tch", "Tea", "teacher"⟩], [⟨1, "C1", 9⟩], [], [], [], 30⟩,
   [("111222", ⟨1, 2, 9, 1000, 0⟩)]⟩

/-- C7 counterexample: user 5 has role "teacher", yet validating a live code
succeeds and auto-enrolls them - a class_enrollments row is written for a
non-student, because the validate path fetches only `id, name` and never
checks the role. -/
theorem validate_auto_enrolls_non_student :
    findUserByFirebase stC7.db "tch" = some ⟨5, "tch", "Tea", "teacher"⟩ ∧
    (validate_instant_password stC7 10 "2026-01-05" "111222" "tch").1.success = true ∧
    ((validate_instant_password stC7 10 "2026-01-05" "111222" "tch").2.db.enrollments.filter
        (fun e => e.student_id == 5)).length = 1 := by
  decide

/-- C7 as amended: the student-role gate holds for face enrollment and for OTP
consume - for a target whose role is not student, `enroll_face` fails and
leaves the embedding store unchanged, and `mark_instant_attendance` fails and
writes neither an enrollment nor an attendance row - but
`validate_instant_password` does not enforce the gate (see the
counterexample). -/
theorem role_gate_enroll_and_consume
    (db : DB) (lv : LivenessResult) (encs : List (List ℚ)) (fid : String) (u : User)
    (st : SysState) (now : Nat) (today : String) (dow : Nat) (code sfid : String) (u2 : User)
    (hu : findUserByFirebase db fid = some u) (hr : u.role ≠ "student")
    (hu2 : findUserByFirebase st.db sfid = some u2) (hr2 : u2.role ≠ "student") :
    (enroll_face db lv encs fid).1.success = false ∧
    (enroll_face db lv encs fid).2 = db ∧
    (mark_instant_attendance st now today dow code sfid).1.success = false ∧
    ((mark_instant_attendance st now today dow code sfid).2).db.enrollments = st.db.enrollments ∧
    ((mark_instant_attendance st now today dow code sfid).2).db.attendance = st.db.attendance := by
  have he : (enroll_face db lv encs fid).1.success = false ∧ (enroll_face db lv encs fid).2 = db := by
    unfold enroll_face
    split
    · exact ⟨rfl, rfl⟩
    · split
      · exact ⟨rfl, rfl⟩
      · split
        · exact ⟨rfl, rfl⟩
        · simp only [hu]
          rw [if_pos hr]
          exact ⟨rfl, rfl⟩
  have hm : (mark_instant_attendance st now today dow code sfid).1.success = false ∧
      ((mark_instant_attendance st now today dow code sfid).2).db.enrollments = st.db.enrollments ∧
      ((mark_instant_attendance st now today dow code sfid).2).db.attendance = st.db.attendance := by
    unfold mark_instant_attendance
    split
    · exact ⟨rfl, rfl, rfl⟩
    · split
      · exact ⟨rfl, rfl, rfl⟩
      · split
        · exact ⟨rfl, rfl, rfl⟩
        · split
          · exact ⟨rfl, rfl, rfl⟩
          · simp only [hu2]
            rw [if_pos hr2]
            exact ⟨rfl, rfl, rfl⟩
  exact ⟨he.1, he.2, hm.1, hm.2.1, hm.2.2⟩

/-- Witness for the amended C7 theorem on the concrete non-student state. -/
theorem role_gate_enroll_and_consume_witness :
    (enroll_face stC7.db ⟨true, 8/10, "ok"⟩ [[1]] "tch").1.success = false ∧
    (enroll_face stC7.db ⟨true, 8/10, "ok"⟩ [[1]] "tch").2 = stC7.db ∧
    (mark_instant_attendance stC7 10 "2026-01-05" 1 "111222" "tch").1.success = false ∧
    ((mark_instant_attendance stC7 10 "2026-01-05" 1 "111222" "tch").2).db.enrollments =
      stC7.db.enrollments ∧
    ((mark_instant_attendance stC7 10 "2026-01-05" 1 "111222" "tch").2).db.attendance =
      stC7.db.attendance :=
  role_gate_enroll_and_consume stC7.db ⟨true, 8/10, "ok"⟩ [[1]] "tch"
    ⟨5, "tch", "Tea", "teacher"⟩ stC7 10 "2026-01-05" 1 "111222" "tch"
    ⟨5, "tch", "Tea", "teacher"⟩ (by decide) (by decide) (by decide) (by decide)

/-- Helper: evaluation of the consume path on a live code for an approved,
not-yet-marked student: the mark succeeds, an attendance row is appended, and
the session map is left untouched. -/
theorem mark_instant_attendance_success
    (st : SysState) (now : Nat) (today : String) (dow : Nat) (code fid : String)
    (pd : PasswordData) (u : User) (e : Enrollment)
    (hc : code ≠ "") (hf : fid ≠ "")
    (hlook : st.instant_passwords.lookup code = some pd)
    (hx : ¬ pd.expires_at < now)
    (hu : findUserByFirebase st.db fid = some u) (hr : u.role = "student")
    (he : st.db.enrollments.find? (fun x => x.class_id == pd.class_id && x.student_id == u.id) = some e)
    (hs : e.status = "approved")
    (ha : existingAttendance st.db u.id pd.class_id pd.slot_number today = []) :
    mark_instant_attendance st now today dow code fid =
      (⟨true, "Attendance marked successfully for " ++ u.name⟩,
       { st with db := { st.db with
           attendance := st.db.attendance ++
             [⟨st.db.next_id, u.id, pd.class_id, pd.slot_number, dow, today, "present",
               "instant_password", now, none⟩],
           next_id := st.db.next_id + 1 } }) := by
  simp [mark_instant_attendance, mark_tail, hc, hf, hlook, hx, hu, hr, he, hs, ha]

/-- C8: a successful consume neither removes the session from the active map
nor changes its state: two distinct approved students consuming the same live
code in sequence both succeed, and after each call the active map equals the
initial one (codes are multi-use until expiry or explicit invalidation). -/
theorem consume_is_multi_use
    (st st1 st2 : SysState) (r1 r2 : ApiResponse) (now1 now2 : Nat) (today : String) (dow : Nat)
    (code fid1 fid2 : String) (pd : PasswordData) (u1 u2 : User) (e1 e2 : Enrollment)
    (hc : code ≠ "") (hf1 : fid1 ≠ "") (hf2 : fid2 ≠ "")
    (hlook : st.instant_passwords.lookup code = some pd)
    (hx1 : ¬ pd.expires_at < now1) (hx2 : ¬ pd.expires_at < now2)
    (hu1 : findUserByFirebase st.db fid1 = some u1) (hr1 : u1.role = "student")
    (hu2 : findUserByFirebase st.db fid2 = some u2) (hr2 : u2.role = "student")
    (hne : u1.id ≠ u2.id)
    (he1 : st.db.enrollments.find? (fun x => x.class_id == pd.class_id && x.student_id == u1.id) = some e1)
    (hs1 : e1.status = "approved")
    (he2 : st.db.enrollments.find? (fun x => x.class_id == pd.class_id && x.student_id == u2.id) = some e2)
    (hs2 : e2.status = "approved")
    (ha1 : existingAttendance st.db u1.id pd.class_id pd.slot_number today = [])
    (ha2 : existingAttendance st.db u2.id pd.class_id pd.slot_number today = [])
    (h1 : mark_instant_attendance st now1 today dow code fid1 = (r1, st1))
    (h2 : mark_instant_attendance st1 now2 today dow code fid2 = (r2, st2)) :
    r1.success = true ∧ r2.success = true ∧
    st1.instant_passwords = st.instant_passwords ∧
    st2.instant_passwords = st.instant_passwords := by
  rw [mark_instant_attendance_success st now1 today dow code fid1 pd u1 e1 hc hf1 hlook hx1
    hu1 hr1 he1 hs1 ha1, Prod.mk.injEq] at h1
  obtain ⟨h1a, h1b⟩ := h1
  have hst1 : st1 = { st with db := { st.db with
      attendance := st.db.attendance ++
        [⟨st.db.next_id, u1.id, pd.class_id, pd.slot_number, dow, today, "present",
          "instant_password", now1, none⟩],
      next_id := st.db.next_id + 1 } } := h1b.symm
  have hlook1 : st1.instant_passwords.lookup code = some pd := by rw [hst1]; exact hlook
  have hu2' : findUserByFirebase st1.db fid2 = some u2 := by rw [hst1]; exact hu2
  have he2' : st1.db.enrollments.find?
      (fun x => x.class_id == pd.class_id && x.student_id == u2.id) = some e2 := by
    rw [hst1]; exact he2
  have ha2' : existingAttendance st1.db u2.id pd.class_id pd.slot_number today = [] := by
    rw [hst1]
    show (st.db.attendance ++ _).filter _ = []
    rw [List.filter_append]
    rw [show st.db.attendance.filter (attendanceKey u2.id pd.class_id pd.slot_number today) = []
      from ha2]
    simp [attendanceKey, hne]
  rw [mark_instant_attendance_success st1 now2 today dow code fid2 pd u2 e2 hc hf2 hlook1 hx2
    hu2' hr2 he2' hs2 ha2', Prod.mk.injEq] at h2
  obtain ⟨h2a, h2b⟩ := h2
  refine ⟨by rw [← h1a], by rw [← h2a], by rw [hst1], ?_⟩
  rw [← h2b]
  show st1.instant_passwords = st.instant_passwords
  rw [hst1]

/-- Concrete state for the C8 witness: two approved students and a live
session "999000" expiring at time 300. -/
def stC8 : SysState :=
  ⟨⟨[⟨1, "a", "A", "student"⟩, ⟨2, "b", "B", "student"⟩], [⟨1, "C", 9⟩],
    [⟨100, 1, 1, "approved", 0, some 0⟩, ⟨101, 1, 2, "approved", 0, some 0⟩], [], [], 200⟩,
   [("999000", ⟨1, 4, 9, 300, 0⟩)]⟩

/-- Witness for the C8 theorem: both students consume the same code before
expiry; both calls succeed and the active map is unchanged. -/
theorem consume_is_multi_use_witness :
    (mark_instant_attendance stC8 10 "2026-01-05" 1 "999000" "a").1.success = true ∧
    (mark_instant_attendance (mark_instant_attendance stC8 10 "2026-01-05" 1 "999000" "a").2 20
      "2026-01-05" 1 "999000" "b").1.success = true ∧
    ((mark_instant_attendance stC8 10 "2026-01-05" 1 "999000" "a").2).instant_passwords =
      stC8.instant_passwords ∧
    ((mark_instant_attendance (mark_instant_attendance stC8 10 "2026-01-05" 1 "999000" "a").2 20
      "2026-01-05" 1 "999000" "b").2).instant_passwords = stC8.instant_passwords :=
  consume_is_multi_use stC8 _ _ _ _ 10 20 "2026-01-05" 1 "999000" "a" "b" ⟨1, 4, 9, 300, 0⟩
    ⟨1, "a", "A", "student"⟩ ⟨2, "b", "B", "student"⟩ ⟨100, 1, 1, "approved", 0, some 0⟩
    ⟨101, 1, 2, "approved", 0, some 0⟩ (by decide) (by decide) (by decide) (by decide)
    (by decide) (by decide) (by decide) (by decide) (by decide) (by decide) (by decide)
    (by decide) (by decide) (by decide) (by decide) (by decide) (by decide) rfl rfl

end Attendance
